import Mathlib

/-!
# About:Blank Launcher — verification of `src/public/about-blank.js`

A shallow embedding of the single-module cloaking script.  JavaScript
objects with possibly-absent (or `undefined`) properties are modelled with
`Option`-valued fields where `none` stands for an absent property; the
browser environment (frame containment, user agent, popup creation result,
close success, which `location.replace` targets throw) is an explicit
record, and `launchInAboutBlank` is a pure function from configuration and
environment to an outcome record: the list of observable events, the final
popup document (if one was built), and the disposition of the original
browsing context.
-/

namespace AboutBlank

/-- A nested `disguise` group as an object whose leaves may be absent
(`none` = the property is missing / `undefined`). -/
structure PDisguise where
  title : Option String := none
  favicon : Option String := none
  deriving DecidableEq

/-- A nested `redirect` group with possibly-absent leaves. -/
structure PRedirect where
  enabled : Option Bool := none
  urls : Option (List String) := none
  deriving DecidableEq

/-- A nested `protection` group with possibly-absent leaves. -/
structure PProtection where
  exitConfirmation : Option Bool := none
  confirmationMessage : Option String := none
  deriving DecidableEq

/-- A caller-supplied partial configuration (`window.aboutBlankConfig`, or
the argument of `setConfig`): every top-level key may be absent, and a
supplied nested group is itself an object with possibly-absent leaves. -/
structure PConfig where
  enabled : Option Bool := none
  skipFirefox : Option Bool := none
  skipIframes : Option Bool := none
  disguise : Option PDisguise := none
  redirect : Option PRedirect := none
  protection : Option PProtection := none
  deriving DecidableEq

/-- The live configuration object.  Top-level scalar leaves are always
present after the script-evaluation-time merge; the three nested groups are
objects whose leaves may become absent again (e.g. after `setConfig`
replaces a whole group). -/
structure Config where
  enabled : Bool
  skipFirefox : Bool
  skipIframes : Bool
  disguise : PDisguise
  redirect : PRedirect
  protection : PProtection
  deriving DecidableEq

/-- `defaultConfig` from the source (lines 13-45). -/
def defaultDisguise : PDisguise :=
  { title := some "My Drive - Google Drive"
    favicon := some "https://ssl.gstatic.com/docs/doclist/images/drive_2022q3_32dp.png" }

/-- Default `redirect` group from the source. -/
def defaultRedirect : PRedirect :=
  { enabled := some true
    urls := some
      [ "https://classroom.google.com"
      , "https://drive.google.com"
      , "https://google.com"
      , "https://docs.google.com"
      , "https://slides.google.com"
      , "https://kahoot.it"
      , "https://clever.com"
      , "https://khanacademy.org"
      , "https://wikipedia.org" ] }

/-- Default `protection` group from the source. -/
def defaultProtection : PProtection :=
  { exitConfirmation := some true
    confirmationMessage := some "Leave Site?" }

/-- The whole default configuration record. -/
def defaultConfig : Config :=
  { enabled := true
    skipFirefox := true
    skipIframes := true
    disguise := defaultDisguise
    redirect := defaultRedirect
    protection := defaultProtection }

/-- `Object.assign({}, d, u)` on a `disguise` group: a leaf present on `u`
wins, an absent leaf keeps `d`'s value. -/
def assignDisguise (d u : PDisguise) : PDisguise :=
  { title := match u.title with | some t => some t | none => d.title
    favicon := match u.favicon with | some f => some f | none => d.favicon }

/-- `Object.assign({}, d, u)` on a `redirect` group. -/
def assignRedirect (d u : PRedirect) : PRedirect :=
  { enabled := match u.enabled with | some b => some b | none => d.enabled
    urls := match u.urls with | some l => some l | none => d.urls }

/-- `Object.assign({}, d, u)` on a `protection` group. -/
def assignProtection (d u : PProtection) : PProtection :=
  { exitConfirmation :=
      match u.exitConfirmation with | some b => some b | none => d.exitConfirmation
    confirmationMessage :=
      match u.confirmationMessage with | some m => some m | none => d.confirmationMessage }

/-- The script-evaluation-time merge (source lines 48-51), generalised over
the base record: top-level keys overwrite key-by-key, then each nested
group is rebuilt by a group-level shallow merge of the caller's group (or
`{}` when absent) over the base's group. -/
def mergeConfig (base : Config) (user : Option PConfig) : Config :=
  let u := user.getD {}
  { enabled := u.enabled.getD base.enabled
    skipFirefox := u.skipFirefox.getD base.skipFirefox
    skipIframes := u.skipIframes.getD base.skipIframes
    disguise := assignDisguise base.disguise (u.disguise.getD {})
    redirect := assignRedirect base.redirect (u.redirect.getD {})
    protection := assignProtection base.protection (u.protection.getD {}) }

/-- The live `config` value produced at script evaluation time from
`window.aboutBlankConfig` (which may be absent). -/
def config (user : Option PConfig) : Config :=
  mergeConfig defaultConfig user

/-- `setConfig` (source lines 220-222): a single top-level
`Object.assign(config, newConfig)` — supplied top-level keys overwrite,
including nested groups which are replaced wholesale, with no nested
merge. -/
def setConfig (c : Config) (p : PConfig) : Config :=
  { enabled := p.enabled.getD c.enabled
    skipFirefox := p.skipFirefox.getD c.skipFirefox
    skipIframes := p.skipIframes.getD c.skipIframes
    disguise := p.disguise.getD c.disguise
    redirect := p.redirect.getD c.redirect
    protection := p.protection.getD c.protection }

/-- `enable` (source lines 224-226). -/
def enable (c : Config) : Config := { c with enabled := true }

/-- `disable` (source lines 228-230). -/
def disable (c : Config) : Config := { c with enabled := false }

/-- JavaScript string coercion of a possibly-`undefined` string value, as
performed by DOM string setters. -/
def jsStr (o : Option String) : String := o.getD "undefined"

/-- JavaScript truthiness of a possibly-`undefined` string value
(`undefined` and the empty string are falsy). -/
def truthyStr (o : Option String) : Bool :=
  match o with
  | some s => !(s == "")
  | none => false

/-- JavaScript truthiness of a possibly-`undefined` boolean value. -/
def truthyBool (o : Option Bool) : Bool := o.getD false

/-- The handle `window.open` returns when it does not return `null`. -/
structure PopupHandle where
  closed : Bool
  deriving DecidableEq

/-- Environment record: everything the script observes from the browser.
`frameCheck` is the evaluation of `window !== window.top`, which may throw
(`Except.error`); `popupResult` is what `window.open` returns; `closeOk`
says whether `window.close()` on the original context actually closes it;
`replaceOk u` says whether `window.location.replace(u)` succeeds rather
than throwing. -/
structure Env where
  frameCheck : Except Unit Bool
  userAgent : String
  locationHref : String
  popupResult : Option PopupHandle
  closeOk : Bool
  replaceOk : String → Bool

/-- `isInFrame` (source lines 56-62): the comparison's value, or `true`
when reading the containment state throws. -/
def isInFrame (env : Env) : Bool :=
  match env.frameCheck with
  | .ok b => b
  | .error _ => true

/-- Does `pat` occur at the head of `s`? (Structural helper for the
substring test.) -/
def leadsWith : List Char → List Char → Bool
  | [], _ => true
  | _ :: _, [] => false
  | c :: p, d :: s => c == d && leadsWith p s

/-- Does `pat` occur anywhere in `s`? (`String.prototype.includes`.) -/
def occursIn (pat : List Char) : List Char → Bool
  | [] => leadsWith pat []
  | c :: rest => leadsWith pat (c :: rest) || occursIn pat rest

/-- `isFirefox` (source lines 67-69): substring test of `"Firefox"`
against the agent string. -/
def isFirefox (env : Env) : Bool :=
  occursIn "Firefox".toList env.userAgent.toList

/-- `getRandomRedirectUrl` (source lines 74-77): `urls[Math.floor(r *
urls.length)]` where `r` is the value returned by `Math.random()`; an
out-of-range index reads as `undefined` (`none`). -/
def getRandomRedirectUrl (urls : List String) (r : ℚ) : Option String :=
  urls[(⌊r * (urls.length : ℚ)⌋).toNat]?

/-- Document elements the script can create. -/
inductive Elem where
  | link (rel href : String)
  | script (textContent : String)
  | iframe (src : String) (style : List (String × String))
  deriving DecidableEq

/-- A popup document: title, head children, body children, body style. -/
structure Doc where
  title : String
  head : List Elem
  body : List Elem
  bodyStyle : List (String × String)
  deriving DecidableEq

/-- The blank document of a fresh `about:blank` popup. -/
def emptyDoc : Doc := { title := "", head := [], body := [], bodyStyle := [] }

/-- The style assignments `setupIframe` performs, in order. -/
def iframeStyle : List (String × String) :=
  [ ("position", "fixed"), ("top", "0"), ("bottom", "0"), ("left", "0")
  , ("right", "0"), ("border", "none"), ("outline", "none")
  , ("width", "100%"), ("height", "100%"), ("margin", "0"), ("padding", "0") ]

/-- `setupIframe` (source lines 82-103): a full-viewport frame whose source
is the captured current address. -/
def setupIframe (currentUrl : String) : Elem :=
  .iframe currentUrl iframeStyle

/-- `setupDisguise` (source lines 108-119): set the title, and append one
favicon link to the head when `disguise.favicon` is truthy. -/
def setupDisguise (cfg : Config) (doc : Doc) : Doc :=
  let doc := { doc with title := jsStr cfg.disguise.title }
  if truthyStr cfg.disguise.favicon then
    { doc with head := doc.head ++ [.link "icon" (jsStr cfg.disguise.favicon)] }
  else
    doc

/-- The text of the injected before-unload script, with the configured
message interpolated. -/
def protectionScriptText (msg : String) : String :=
  "window.onbeforeunload = function (event) \x7b const confirmationMessage = \x27" ++
    msg ++ "\x27; (event || window.event).returnValue = confirmationMessage; " ++
    "return confirmationMessage; \x7d;"

/-- `addExitProtection` (source lines 124-136): when
`protection.exitConfirmation` is truthy, append a script element to the
head installing the before-unload handler. -/
def addExitProtection (cfg : Config) (doc : Doc) : Doc :=
  if !truthyBool cfg.protection.exitConfirmation then doc
  else
    { doc with
        head := doc.head ++
          [.script (protectionScriptText (jsStr cfg.protection.confirmationMessage))] }

/-- Observable actions the script performs on the browser. -/
inductive Event where
  | log (msg : String)
  | alertShown (msg : String)
  | windowOpen (url target : String)
  | windowClose
  | locationReplace (url : String)
  | locationAssign (url : String)
  deriving DecidableEq

/-- The alert text for the popup-blocked hard failure (source line 167). -/
def popupBlockedMsg : String :=
  "Please allow popups to use about:blank mode. The page will load normally in about:blank and prevents it from going in your history. Also, no extensions will be able to see the content."

/-- Outcome of one launch attempt, after the disposal timer (if any) has
fired: observable events in order, the popup document when one was built,
whether the original context ended closed, the `location.replace`
candidates attempted on it, and the destination actually applied. -/
structure LaunchOutcome where
  events : List Event
  popupDoc : Option Doc
  origClosed : Bool
  navAttempts : List String
  origNavigatedTo : Option String
  deriving DecidableEq

/-- The fallback chain of the Origin Disposer (source lines 193-201):
candidates are attempted in order; the first whose `location.replace` does
not throw is applied. Returns the attempted prefix and the applied
destination (none if even the last resort threw). -/
def fallbackChain (env : Env) : List String × Option String :=
  if env.replaceOk "chrome://newtab/" then
    (["chrome://newtab/"], some "chrome://newtab/")
  else if env.replaceOk "about:newtab" then
    (["chrome://newtab/", "about:newtab"], some "about:newtab")
  else if env.replaceOk "about:blank" then
    (["chrome://newtab/", "about:newtab", "about:blank"], some "about:blank")
  else
    (["chrome://newtab/", "about:newtab", "about:blank"], none)

/-- `launchInAboutBlank` (source lines 141-210) together with the disposal
timer callback (lines 189-203) run to quiescence. -/
def launchInAboutBlank (cfg : Config) (env : Env) : LaunchOutcome :=
  if !cfg.enabled then
    { events := [.log "About:blank launcher is disabled"], popupDoc := none
      origClosed := false, navAttempts := [], origNavigatedTo := none }
  else if cfg.skipIframes && isInFrame env then
    { events := [.log "Skipping about:blank launch - already in iframe"], popupDoc := none
      origClosed := false, navAttempts := [], origNavigatedTo := none }
  else if cfg.skipFirefox && isFirefox env then
    { events := [.log "Skipping about:blank launch - Firefox detected"], popupDoc := none
      origClosed := false, navAttempts := [], origNavigatedTo := none }
  else
    let currentUrl := env.locationHref
    match env.popupResult with
    | none =>
        { events := [.windowOpen "about:blank" "_blank", .alertShown popupBlockedMsg]
          popupDoc := none, origClosed := false, navAttempts := []
          origNavigatedTo := none }
    | some handle =>
      if handle.closed then
        { events := [.windowOpen "about:blank" "_blank", .alertShown popupBlockedMsg]
          popupDoc := none, origClosed := false, navAttempts := []
          origNavigatedTo := none }
      else
        let doc := emptyDoc
        let doc := setupDisguise cfg doc
        let iframe := setupIframe currentUrl
        let doc := addExitProtection cfg doc
        let doc :=
          { doc with
              bodyStyle := doc.bodyStyle ++ [("margin", "0"), ("padding", "0")]
              body := doc.body ++ [iframe] }
        if truthyBool cfg.redirect.enabled then
          if env.closeOk then
            { events := [.windowOpen "about:blank" "_blank", .windowClose]
              popupDoc := some doc, origClosed := true, navAttempts := []
              origNavigatedTo := none }
          else
            let chain := fallbackChain env
            { events :=
                [.windowOpen "about:blank" "_blank", .windowClose
                , .log "Could not close tab, redirecting to new tab page"] ++
                (match chain.2 with
                 | some u => [.locationReplace u]
                 | none => [])
              popupDoc := some doc, origClosed := false
              navAttempts := chain.1, origNavigatedTo := chain.2 }
        else
          { events := [.windowOpen "about:blank" "_blank"], popupDoc := some doc
            origClosed := false, navAttempts := [], origNavigatedTo := none }

/-- `isSupported` (source lines 232-234). -/
def isSupported (cfg : Config) (env : Env) : Bool :=
  !isInFrame env && (!cfg.skipFirefox || !isFirefox env)

/-- Is an element an iframe? -/
def isIframeElem : Elem → Bool
  | .iframe _ _ => true
  | _ => false

/-- Is an element a favicon link (the script only creates links with
`rel = "icon"`)? -/
def isFaviconLink : Elem → Bool
  | .link rel _ => rel == "icon"
  | _ => false

/-- The document the Popup Orchestrator builds on the success path:
disguise, then exit protection, then body styling and the appended
frame. -/
def buildPopupDoc (cfg : Config) (url : String) : Doc :=
  let doc := addExitProtection cfg (setupDisguise cfg emptyDoc)
  { doc with
      bodyStyle := doc.bodyStyle ++ [("margin", "0"), ("padding", "0")]
      body := doc.body ++ [setupIframe url] }

/-! ## Concrete sample environments used by witnesses and counterexamples -/

/-- A permissive Chrome-like environment: top-level context, popup allowed
and open, close succeeds, all navigations succeed. -/
def envChrome : Env :=
  { frameCheck := .ok false
    userAgent := "Mozilla/5.0 AppleWebKit Chrome"
    locationHref := "https://example.edu/lesson"
    popupResult := some { closed := false }
    closeOk := true
    replaceOk := fun _ => true }

/-- `envChrome` but the popup was blocked (`window.open` returned null). -/
def envBlocked : Env := { envChrome with popupResult := none }

/-- `envChrome` but the frame-containment read throws. -/
def envThrow : Env := { envChrome with frameCheck := .error () }

/-- `envChrome` but nested inside a frame. -/
def envNested : Env := { envChrome with frameCheck := .ok true }

/-- A configuration with the iframe skip disabled. -/
def cfgNoSkip : Config := { defaultConfig with skipIframes := false }

/-! ## Helper lemmas -/

/-- A group-level shallow merge of a group over itself twice is the same as
once (disguise). -/
theorem assignDisguise_idem (d u : PDisguise) :
    assignDisguise (assignDisguise d u) u = assignDisguise d u := by
  obtain ⟨t, f⟩ := u
  cases t <;> cases f <;> rfl

/-- Idempotence of the group-level shallow merge (redirect). -/
theorem assignRedirect_idem (d u : PRedirect) :
    assignRedirect (assignRedirect d u) u = assignRedirect d u := by
  obtain ⟨e, l⟩ := u
  cases e <;> cases l <;> rfl

/-- Idempotence of the group-level shallow merge (protection). -/
theorem assignProtection_idem (d u : PProtection) :
    assignProtection (assignProtection d u) u = assignProtection d u := by
  obtain ⟨e, m⟩ := u
  cases e <;> cases m <;> rfl

/-- `o.getD (o.getD x) = o.getD x`: a top-level key assigned twice from the
same source ends at the same value. -/
theorem optAssign_idem {α : Type} (o : Option α) (x : α) :
    o.getD (o.getD x) = o.getD x := by
  cases o <;> rfl

/-- The generalised script-evaluation merge is idempotent. -/
theorem mergeConfig_idem (b : Config) (p : Option PConfig) :
    mergeConfig (mergeConfig b p) p = mergeConfig b p := by
  simp [mergeConfig, optAssign_idem, assignDisguise_idem, assignRedirect_idem,
    assignProtection_idem]

/-! ## Claim theorems -/

/-- C8: when `config.enabled` is false, `launch()` only logs the disabled
state: no popup document is built, no browsing-context event happens, the
original context stays open and un-navigated, and no other message is
logged. -/
theorem launch_disabled (cfg : Config) (env : Env) (h : cfg.enabled = false) :
    launchInAboutBlank cfg env =
      { events := [.log "About:blank launcher is disabled"], popupDoc := none
        origClosed := false, navAttempts := [], origNavigatedTo := none } := by
  simp [launchInAboutBlank, h]

/-- Witness for `launch_disabled` at a concrete disabled configuration. -/
theorem launch_disabled_witness :
    launchInAboutBlank (disable defaultConfig) envChrome =
      { events := [.log "About:blank launcher is disabled"], popupDoc := none
        origClosed := false, navAttempts := [], origNavigatedTo := none } :=
  launch_disabled (disable defaultConfig) envChrome rfl

/-- C10: `enable` and `disable` change only the `enabled` field, leaving
the skip flags and all three nested groups untouched. -/
theorem enable_disable_only_enabled (c : Config) :
    (enable c).enabled = true ∧ (disable c).enabled = false ∧
    (enable c).skipFirefox = c.skipFirefox ∧ (enable c).skipIframes = c.skipIframes ∧
    (enable c).disguise = c.disguise ∧ (enable c).redirect = c.redirect ∧
    (enable c).protection = c.protection ∧
    (disable c).skipFirefox = c.skipFirefox ∧ (disable c).skipIframes = c.skipIframes ∧
    (disable c).disguise = c.disguise ∧ (disable c).redirect = c.redirect ∧
    (disable c).protection = c.protection := by
  simp [enable, disable]

/-- The partial used to exhibit `setConfig`'s shallow replacement: a
disguise group carrying only a title. -/
def pDocs : PConfig := { disguise := some { title := some "Docs" } }

/-- C7: `setConfig` is a single top-level shallow assignment: a supplied
nested group replaces the existing group wholesale, so leaves absent from
the caller's group object become absent (`undefined`) afterward; the
nested leaf-wise merge of script-evaluation time is not applied (the two
disagree on `pDocs`). -/
theorem setConfig_shallow (c : Config) (p : PConfig) :
    (∀ g, p.disguise = some g → (setConfig c p).disguise = g) ∧
    (∀ g, p.redirect = some g → (setConfig c p).redirect = g) ∧
    (∀ g, p.protection = some g → (setConfig c p).protection = g) ∧
    (∀ g, p.disguise = some g → g.favicon = none →
      (setConfig c p).disguise.favicon = none) ∧
    (setConfig defaultConfig pDocs).disguise.favicon = none ∧
    (mergeConfig defaultConfig (some pDocs)).disguise.favicon = defaultDisguise.favicon ∧
    setConfig defaultConfig pDocs ≠ mergeConfig defaultConfig (some pDocs) := by
  refine ⟨?_, ?_, ?_, ?_, ?_, ?_, ?_⟩
  · intro g hg; simp [setConfig, hg]
  · intro g hg; simp [setConfig, hg]
  · intro g hg; simp [setConfig, hg]
  · intro g hg hf; simp [setConfig, hg, hf]
  · rfl
  · rfl
  · decide

/-- Witness for `setConfig_shallow`: replacing the disguise group via
`setConfig` drops the previously present favicon leaf. -/
theorem setConfig_shallow_witness :
    (setConfig defaultConfig pDocs).disguise = { title := some "Docs" } ∧
    (setConfig defaultConfig pDocs).disguise.favicon = none :=
  ⟨(setConfig_shallow defaultConfig pDocs).1 _ rfl,
   (setConfig_shallow defaultConfig pDocs).2.2.2.1 _ rfl rfl⟩

/-- C6: an environment whose frame-containment read throws is
indistinguishable from one where the read returns `true`: `launch` and
`isSupported` give identical results, and with `skipIframes` enabled (and
the feature enabled) `launch` skips with the iframe diagnostic and no side
effects. -/
theorem frame_throw_like_nested (cfg : Config) (env : Env) (u : Unit)
    (h : env.frameCheck = .error u) :
    launchInAboutBlank cfg env =
      launchInAboutBlank cfg { env with frameCheck := .ok true } ∧
    isSupported cfg env = isSupported cfg { env with frameCheck := .ok true } ∧
    (cfg.skipIframes = true → cfg.enabled = true →
      launchInAboutBlank cfg env =
        { events := [.log "Skipping about:blank launch - already in iframe"]
          popupDoc := none, origClosed := false, navAttempts := []
          origNavigatedTo := none }) := by
  have h1 : isInFrame env = true := by simp [isInFrame, h]
  have h2 : isInFrame { env with frameCheck := .ok true } = true := rfl
  have h3 : isFirefox { env with frameCheck := .ok true } = isFirefox env := rfl
  have h4 : fallbackChain { env with frameCheck := .ok true } = fallbackChain env := rfl
  refine ⟨?_, ?_, ?_⟩
  · simp [launchInAboutBlank, h1, h2, h3, h4]
  · simp [isSupported, h1, h2]
  · intro hsi hen
    simp [launchInAboutBlank, h1, hsi, hen]

/-- Witness for `frame_throw_like_nested` in a concrete throwing
environment with the default configuration. -/
theorem frame_throw_like_nested_witness :
    launchInAboutBlank defaultConfig envThrow =
      { events := [.log "Skipping about:blank launch - already in iframe"]
        popupDoc := none, origClosed := false, navAttempts := []
        origNavigatedTo := none } :=
  (frame_throw_like_nested defaultConfig envThrow () rfl).2.2 rfl rfl

/-- C9: the random-pick utility returns `undefined` (`none`) on an empty
list instead of throwing, and an element of the list on any non-empty
list, for every possible value `r` of `Math.random()` (so `0 ≤ r < 1`). -/
theorem getRandomRedirectUrl_spec (urls : List String) (r : ℚ)
    (h0 : 0 ≤ r) (h1 : r < 1) :
    (urls = [] → getRandomRedirectUrl urls r = none) ∧
    (urls ≠ [] → ∃ u ∈ urls, getRandomRedirectUrl urls r = some u) := by
  constructor
  · rintro rfl
    simp [getRandomRedirectUrl]
  · intro hne
    have hlen : 0 < urls.length := List.length_pos.mpr hne
    have hlenQ : (0 : ℚ) < (urls.length : ℚ) := by exact_mod_cast hlen
    have hub : r * (urls.length : ℚ) < (urls.length : ℚ) := by
      calc r * (urls.length : ℚ) < 1 * (urls.length : ℚ) :=
            mul_lt_mul_of_pos_right h1 hlenQ
        _ = (urls.length : ℚ) := one_mul _
    have hlb : (0 : ℚ) ≤ r * (urls.length : ℚ) := mul_nonneg h0 (le_of_lt hlenQ)
    have hfl : ⌊r * (urls.length : ℚ)⌋ < (urls.length : ℤ) := by
      rw [Int.floor_lt]
      exact_mod_cast hub
    have h0f : 0 ≤ ⌊r * (urls.length : ℚ)⌋ := Int.floor_nonneg.mpr hlb
    have hi : (⌊r * (urls.length : ℚ)⌋).toNat < urls.length := by omega
    refine ⟨urls[(⌊r * (urls.length : ℚ)⌋).toNat], List.getElem_mem hi, ?_⟩
    simp [getRandomRedirectUrl, List.getElem?_eq_getElem hi]

/-- Witness for `getRandomRedirectUrl_spec`: the empty-list and a two-element
case at `r = 1/2`. -/
theorem getRandomRedirectUrl_spec_witness :
    getRandomRedirectUrl [] (1 / 2) = none ∧
    ∃ u ∈ ["https://google.com", "https://kahoot.it"],
      getRandomRedirectUrl ["https://google.com", "https://kahoot.it"] (1 / 2) = some u :=
  ⟨(getRandomRedirectUrl_spec [] (1 / 2) (by norm_num) (by norm_num)).1 rfl,
   (getRandomRedirectUrl_spec ["https://google.com", "https://kahoot.it"] (1 / 2)
      (by norm_num) (by norm_num)).2 (by simp)⟩

/-- C3: the script-evaluation-time merge overrides every explicitly
supplied leaf and preserves every default leaf not overridden, at the top
level and inside each nested group (an absent group counts as supplying no
leaves); the merge is idempotent; and every nested group of the result is
present with every leaf defined. -/
theorem merge_spec (p : PConfig) :
    (∀ v, p.enabled = some v → (config (some p)).enabled = v) ∧
    (∀ v, p.skipFirefox = some v → (config (some p)).skipFirefox = v) ∧
    (∀ v, p.skipIframes = some v → (config (some p)).skipIframes = v) ∧
    (p.enabled = none → (config (some p)).enabled = defaultConfig.enabled) ∧
    (p.skipFirefox = none → (config (some p)).skipFirefox = defaultConfig.skipFirefox) ∧
    (p.skipIframes = none → (config (some p)).skipIframes = defaultConfig.skipIframes) ∧
    (∀ t, (p.disguise.getD {}).title = some t →
      (config (some p)).disguise.title = some t) ∧
    (∀ f, (p.disguise.getD {}).favicon = some f →
      (config (some p)).disguise.favicon = some f) ∧
    (∀ b, (p.redirect.getD {}).enabled = some b →
      (config (some p)).redirect.enabled = some b) ∧
    (∀ l, (p.redirect.getD {}).urls = some l →
      (config (some p)).redirect.urls = some l) ∧
    (∀ b, (p.protection.getD {}).exitConfirmation = some b →
      (config (some p)).protection.exitConfirmation = some b) ∧
    (∀ m, (p.protection.getD {}).confirmationMessage = some m →
      (config (some p)).protection.confirmationMessage = some m) ∧
    ((p.disguise.getD {}).title = none →
      (config (some p)).disguise.title = defaultDisguise.title) ∧
    ((p.disguise.getD {}).favicon = none →
      (config (some p)).disguise.favicon = defaultDisguise.favicon) ∧
    ((p.redirect.getD {}).enabled = none →
      (config (some p)).redirect.enabled = defaultRedirect.enabled) ∧
    ((p.redirect.getD {}).urls = none →
      (config (some p)).redirect.urls = defaultRedirect.urls) ∧
    ((p.protection.getD {}).exitConfirmation = none →
      (config (some p)).protection.exitConfirmation = defaultProtection.exitConfirmation) ∧
    ((p.protection.getD {}).confirmationMessage = none →
      (config (some p)).protection.confirmationMessage = defaultProtection.confirmationMessage) ∧
    (∀ b : Config, mergeConfig (mergeConfig b (some p)) (some p) = mergeConfig b (some p)) ∧
    ((config (some p)).disguise.title.isSome = true ∧
     (config (some p)).disguise.favicon.isSome = true ∧
     (config (some p)).redirect.enabled.isSome = true ∧
     (config (some p)).redirect.urls.isSome = true ∧
     (config (some p)).protection.exitConfirmation.isSome = true ∧
     (config (some p)).protection.confirmationMessage.isSome = true) := by
  refine ⟨?_, ?_, ?_, ?_, ?_, ?_, ?_, ?_, ?_, ?_, ?_, ?_, ?_, ?_, ?_, ?_, ?_, ?_,
    fun b => mergeConfig_idem b (some p), ?_, ?_, ?_, ?_, ?_, ?_⟩
  · intro v hv; simp [config, mergeConfig, hv]
  · intro v hv; simp [config, mergeConfig, hv]
  · intro v hv; simp [config, mergeConfig, hv]
  · intro hv; simp [config, mergeConfig, hv, defaultConfig]
  · intro hv; simp [config, mergeConfig, hv, defaultConfig]
  · intro hv; simp [config, mergeConfig, hv, defaultConfig]
  · intro t ht; simp [config, mergeConfig, assignDisguise, ht]
  · intro f hf; simp [config, mergeConfig, assignDisguise, hf]
  · intro b hb; simp [config, mergeConfig, assignRedirect, hb]
  · intro l hl; simp [config, mergeConfig, assignRedirect, hl]
  · intro b hb; simp [config, mergeConfig, assignProtection, hb]
  · intro m hm; simp [config, mergeConfig, assignProtection, hm]
  · intro ht; simp [config, mergeConfig, assignDisguise, ht, defaultConfig]
  · intro hf; simp [config, mergeConfig, assignDisguise, hf, defaultConfig]
  · intro hb; simp [config, mergeConfig, assignRedirect, hb, defaultConfig]
  · intro hl; simp [config, mergeConfig, assignRedirect, hl, defaultConfig]
  · intro hb; simp [config, mergeConfig, assignProtection, hb, defaultConfig]
  · intro hm; simp [config, mergeConfig, assignProtection, hm, defaultConfig]
  · cases h : (p.disguise.getD {}).title <;>
      simp [config, mergeConfig, assignDisguise, h, defaultConfig, defaultDisguise]
  · cases h : (p.disguise.getD {}).favicon <;>
      simp [config, mergeConfig, assignDisguise, h, defaultConfig, defaultDisguise]
  · cases h : (p.redirect.getD {}).enabled <;>
      simp [config, mergeConfig, assignRedirect, h, defaultConfig, defaultRedirect]
  · cases h : (p.redirect.getD {}).urls <;>
      simp [config, mergeConfig, assignRedirect, h, defaultConfig, defaultRedirect]
  · cases h : (p.protection.getD {}).exitConfirmation <;>
      simp [config, mergeConfig, assignProtection, h, defaultConfig, defaultProtection]
  · cases h : (p.protection.getD {}).confirmationMessage <;>
      simp [config, mergeConfig, assignProtection, h, defaultConfig, defaultProtection]

/-- The concrete partial used to witness the merge specification. -/
def pSample : PConfig :=
  { enabled := some false
    disguise := some { title := some "Physics" }
    redirect := some { enabled := some false } }

/-- Witness for `merge_spec` at `pSample`: the supplied leaves are
overridden and an untouched nested leaf keeps its default. -/
theorem merge_spec_witness :
    (config (some pSample)).enabled = false ∧
    (config (some pSample)).disguise.title = some "Physics" ∧
    (config (some pSample)).disguise.favicon = defaultDisguise.favicon ∧
    (config (some pSample)).skipFirefox = defaultConfig.skipFirefox ∧
    mergeConfig (mergeConfig defaultConfig (some pSample)) (some pSample) =
      mergeConfig defaultConfig (some pSample) := by
  obtain ⟨h1, _, _, _, h5, _, h7, _, _, _, _, _, _, h14, _⟩ := merge_spec pSample
  exact ⟨h1 false rfl, h7 "Physics" rfl, h14 rfl, h5 rfl, (merge_spec pSample).2.2.2.2.2.2.2.2.2.2.2.2.2.2.2.2.2.2.1 defaultConfig⟩

/-- C5: if the Environment Guard passes but `window.open` returns `null`
or an already-closed handle, the only effects are the open attempt and the
popup-blocked alert: no document is populated (so no title, favicon, frame
or protection script anywhere), and the original context is neither closed
nor navigated. -/
theorem popup_blocked_abort (cfg : Config) (env : Env)
    (hen : cfg.enabled = true)
    (hif : (cfg.skipIframes && isInFrame env) = false)
    (hff : (cfg.skipFirefox && isFirefox env) = false)
    (hp : env.popupResult = none ∨
      ∃ h, env.popupResult = some h ∧ h.closed = true) :
    launchInAboutBlank cfg env =
      { events := [.windowOpen "about:blank" "_blank", .alertShown popupBlockedMsg]
        popupDoc := none, origClosed := false, navAttempts := []
        origNavigatedTo := none } := by
  rcases hp with hp | ⟨h, hp, hc⟩
  · simp only [launchInAboutBlank, hen, hif, hff, hp, Bool.not_true]
    simp
  · simp only [launchInAboutBlank, hen, hif, hff, hp, Bool.not_true]
    simp [hc]

/-- Witness for `popup_blocked_abort` with the default configuration in a
popup-blocking environment. -/
theorem popup_blocked_abort_witness :
    launchInAboutBlank defaultConfig envBlocked =
      { events := [.windowOpen "about:blank" "_blank", .alertShown popupBlockedMsg]
        popupDoc := none, origClosed := false, navAttempts := []
        origNavigatedTo := none } :=
  popup_blocked_abort defaultConfig envBlocked rfl rfl (by decide) (Or.inl rfl)

/-- On the success path (guard passed, open popup handle), the popup
document `launch` leaves behind is exactly the orchestrated build,
whatever the disposer then does. -/
theorem launch_success_popupDoc (cfg : Config) (env : Env)
    (hen : cfg.enabled = true)
    (hif : (cfg.skipIframes && isInFrame env) = false)
    (hff : (cfg.skipFirefox && isFirefox env) = false)
    (hp : env.popupResult = some { closed := false }) :
    (launchInAboutBlank cfg env).popupDoc = some (buildPopupDoc cfg env.locationHref) := by
  simp only [launchInAboutBlank, hen, hif, hff, hp, buildPopupDoc, Bool.not_true]
  cases hr : truthyBool cfg.redirect.enabled <;> cases hc : env.closeOk <;> simp

/-- C1: after a successful popup build with a non-empty configured title,
the popup document's title equals `disguise.title`, the body holds exactly
one iframe and its source is the address captured before any navigation of
the original context, and the head holds exactly one favicon link when
`disguise.favicon` is truthy and none otherwise. -/
theorem popup_build_spec (cfg : Config) (env : Env) (t : String)
    (hen : cfg.enabled = true)
    (hif : (cfg.skipIframes && isInFrame env) = false)
    (hff : (cfg.skipFirefox && isFirefox env) = false)
    (hp : env.popupResult = some { closed := false })
    (ht : cfg.disguise.title = some t) (_htne : t ≠ "") :
    ∃ d, (launchInAboutBlank cfg env).popupDoc = some d ∧
      d.title = t ∧
      d.body.filter isIframeElem = [Elem.iframe env.locationHref iframeStyle] ∧
      (d.head.filter isFaviconLink).length =
        (if truthyStr cfg.disguise.favicon = true then 1 else 0) := by
  refine ⟨buildPopupDoc cfg env.locationHref,
    launch_success_popupDoc cfg env hen hif hff hp, ?_, ?_, ?_⟩
  · cases hf : truthyStr cfg.disguise.favicon <;>
      cases he : truthyBool cfg.protection.exitConfirmation <;>
      simp [buildPopupDoc, addExitProtection, setupDisguise, emptyDoc, jsStr, ht, hf, he]
  · cases hf : truthyStr cfg.disguise.favicon <;>
      cases he : truthyBool cfg.protection.exitConfirmation <;>
      simp [buildPopupDoc, addExitProtection, setupDisguise, setupIframe, emptyDoc,
        isIframeElem, hf, he, List.filter]
  · cases hf : truthyStr cfg.disguise.favicon <;>
      cases he : truthyBool cfg.protection.exitConfirmation <;>
      simp [buildPopupDoc, addExitProtection, setupDisguise, emptyDoc,
        isFaviconLink, hf, he, List.filter]

/-- Witness for `popup_build_spec`: the default configuration in the
permissive environment builds a popup titled like Google Drive with one
frame and one favicon link. -/
theorem popup_build_spec_witness :
    ∃ d, (launchInAboutBlank defaultConfig envChrome).popupDoc = some d ∧
      d.title = "My Drive - Google Drive" ∧
      d.body.filter isIframeElem = [Elem.iframe envChrome.locationHref iframeStyle] ∧
      (d.head.filter isFaviconLink).length =
        (if truthyStr defaultConfig.disguise.favicon = true then 1 else 0) :=
  popup_build_spec defaultConfig envChrome "My Drive - Google Drive"
    rfl rfl (by decide) rfl rfl (by decide)

/-- C4: after a successful build with `redirect.enabled` truthy, a
successful Phase 1 close leaves the original context closed with no
fallback navigation attempted; if the close fails, exactly one fallback
destination is applied, trying `chrome://newtab/`, `about:newtab`,
`about:blank` in that order and advancing only past candidates whose
navigation throws (the last resort assumed not to throw), and every
navigation of the original context is a history-replacing one. -/
theorem disposer_spec (cfg : Config) (env : Env)
    (hen : cfg.enabled = true)
    (hif : (cfg.skipIframes && isInFrame env) = false)
    (hff : (cfg.skipFirefox && isFirefox env) = false)
    (hp : env.popupResult = some { closed := false })
    (hr : truthyBool cfg.redirect.enabled = true)
    (hab : env.replaceOk "about:blank" = true) :
    (env.closeOk = true →
      (launchInAboutBlank cfg env).origClosed = true ∧
      (launchInAboutBlank cfg env).navAttempts = [] ∧
      (launchInAboutBlank cfg env).origNavigatedTo = none) ∧
    (env.closeOk = false →
      (∃ u, (launchInAboutBlank cfg env).origNavigatedTo = some u ∧
        Event.locationReplace u ∈ (launchInAboutBlank cfg env).events) ∧
      (env.replaceOk "chrome://newtab/" = true →
        (launchInAboutBlank cfg env).origNavigatedTo = some "chrome://newtab/" ∧
        (launchInAboutBlank cfg env).navAttempts = ["chrome://newtab/"]) ∧
      (env.replaceOk "chrome://newtab/" = false → env.replaceOk "about:newtab" = true →
        (launchInAboutBlank cfg env).origNavigatedTo = some "about:newtab" ∧
        (launchInAboutBlank cfg env).navAttempts = ["chrome://newtab/", "about:newtab"]) ∧
      (env.replaceOk "chrome://newtab/" = false → env.replaceOk "about:newtab" = false →
        (launchInAboutBlank cfg env).origNavigatedTo = some "about:blank" ∧
        (launchInAboutBlank cfg env).navAttempts =
          ["chrome://newtab/", "about:newtab", "about:blank"])) ∧
    (∀ u, Event.locationAssign u ∉ (launchInAboutBlank cfg env).events) := by
  refine ⟨?_, ?_, ?_⟩
  · intro hc
    simp only [launchInAboutBlank, hen, hif, hff, hp, hr, hc, Bool.not_true]
    simp
  · intro hc
    simp only [launchInAboutBlank, hen, hif, hff, hp, hr, hc, Bool.not_true]
    refine ⟨?_, ?_, ?_, ?_⟩
    · by_cases h1 : env.replaceOk "chrome://newtab/" = true
      · exact ⟨"chrome://newtab/", by simp [fallbackChain, h1]⟩
      · by_cases h2 : env.replaceOk "about:newtab" = true
        · exact ⟨"about:newtab",
            by simp [fallbackChain, Bool.of_not_eq_true h1, h2]⟩
        · exact ⟨"about:blank",
            by simp [fallbackChain, Bool.of_not_eq_true h1, Bool.of_not_eq_true h2, hab]⟩
    · intro h1; simp [fallbackChain, h1]
    · intro h1 h2; simp [fallbackChain, h1, h2]
    · intro h1 h2; simp [fallbackChain, h1, h2, hab]
  · intro u
    cases hc : env.closeOk
    · simp only [launchInAboutBlank, hen, hif, hff, hp, hr, hc, Bool.not_true]
      rcases h : (fallbackChain env).2 with _ | v <;> simp [h]
    · simp only [launchInAboutBlank, hen, hif, hff, hp, hr, hc, Bool.not_true]
      simp

/-- An environment where the original context refuses to close and only
`about:blank` is a permitted navigation target. -/
def envStubborn : Env :=
  { envChrome with closeOk := false, replaceOk := fun u => u == "about:blank" }

/-- Witness for `disposer_spec`: with close refused and the privileged
destinations rejected, exactly the last-resort destination is applied. -/
theorem disposer_spec_witness :
    (launchInAboutBlank defaultConfig envStubborn).origNavigatedTo = some "about:blank" ∧
    (launchInAboutBlank defaultConfig envStubborn).navAttempts =
      ["chrome://newtab/", "about:newtab", "about:blank"] :=
  ((disposer_spec defaultConfig envStubborn rfl rfl (by decide) rfl rfl
    rfl).2.1 rfl).2.2.2 rfl rfl

/-- C2 as stated is false: `isSupported()` ignores `skipIframes`.  With
`skipIframes` disabled in a nested context, the guard lets `launch()`
proceed (its first action is the popup open), yet `isSupported()` returns
`false`. -/
theorem isSupported_claim_counterexample :
    isSupported cfgNoSkip envNested = false ∧
    ¬(cfgNoSkip.skipIframes = true ∧ isInFrame envNested = true) ∧
    ¬(cfgNoSkip.skipFirefox = true ∧ isFirefox envNested = true) ∧
    (launchInAboutBlank cfgNoSkip envNested).events.head? =
      some (.windowOpen "about:blank" "_blank") := by
  refine ⟨rfl, by decide, by decide, by decide⟩

/-- C2 amended: `isSupported()` returns `false` exactly when the context
is nested (or the frame check throws) — regardless of `skipIframes` — or
when `skipFirefox` is enabled and the agent identity contains `Firefox`;
it is a pure predicate, and `isSupported() = true` still guarantees that
an enabled `launch()` proceeds past the Environment Guard. -/
theorem isSupported_spec (cfg : Config) (env : Env) :
    (isSupported cfg env = false ↔
      (isInFrame env = true ∨ (cfg.skipFirefox = true ∧ isFirefox env = true))) ∧
    (isSupported cfg env = true → cfg.enabled = true →
      (launchInAboutBlank cfg env).events.head? =
        some (.windowOpen "about:blank" "_blank")) := by
  constructor
  · cases hf : isInFrame env <;> cases hsf : cfg.skipFirefox <;>
      cases hff : isFirefox env <;> simp [isSupported, hf, hsf, hff]
  · intro hs hen
    have hfr : isInFrame env = false := by
      cases h : isInFrame env
      · rfl
      · rw [isSupported, h] at hs; simp at hs
    have hffx : (cfg.skipFirefox && isFirefox env) = false := by
      rw [isSupported, hfr] at hs
      cases h1 : cfg.skipFirefox <;> cases h2 : isFirefox env <;>
        simp_all
    simp only [launchInAboutBlank, hen, hfr, Bool.and_false, hffx, Bool.not_true]
    rcases hpr : env.popupResult with _ | h
    · simp
    · cases hcl : h.closed <;>
        cases hr : truthyBool cfg.redirect.enabled <;>
        cases hc : env.closeOk <;>
        simp [hcl]

/-- Witness for `isSupported_spec`: in the permissive environment the
default configuration is supported and `launch` indeed opens the popup
first. -/
theorem isSupported_spec_witness :
    (launchInAboutBlank defaultConfig envChrome).events.head? =
      some (.windowOpen "about:blank" "_blank") :=
  (isSupported_spec defaultConfig envChrome).2 (by decide) rfl

end AboutBlank
